import Mathlib

/-!
Shallow embedding of the polling-and-serialization core of `spdc_GUI.py`:
the busy-flag access serializer, the telemetry poll loop (`UpdateGUI.run`,
`UpdateGUI.get_data`), the command sequences (`MainWindow.toggle_power`,
`MainWindow.toggle_laser`), device-mode classification
(`MainWindow.set_devmode`) and the status-bit decoding used by
`MainWindow.enableDevOptions` and `MainWindow.update_from_thread`.

Machine integers are modelled as `Nat` (the registers are non-negative
Python ints; the bit operations used are `&` and `>>`).  Device values that
the core only passes around opaquely (currents, temperatures, voltages) are
also modelled as `Nat`.  A device call that may raise
`SerialTimeoutException` is driven by an explicit failure schedule
`fail : Nat -> Bool` indexed by the call position inside the command;
an uncaught exception is an `Except.error` carrying the actions already
performed.  The spin loops (`while not read_out` with a stuck flag, and
`while self.unblocked` falling through) are modelled by `Option`:
`none` means the call never completes (respectively returns Python `None`).
-/

namespace SpdcGUI

/-- Device-mode classification result (`self._dev_mode` in the source). -/
inductive DevMode
  | CPPS
  | EPPS
  deriving DecidableEq, Repr

/-- The device-side state visible to this core: the seven polled registers
plus the `old_laser_current` field written back by `toggle_laser`. -/
structure DeviceState where
  laser_current : Nat
  peltier_temp : Nat
  peltier_voltage : Nat
  pconstp : Nat
  pconsti : Nat
  power : Nat
  status : Nat
  old_laser_current : Nat
  deriving DecidableEq, Repr

/-- One call on the device handle, as issued by the command sequences
(`sleepMs` records the `time.sleep(0.02)` settle delay, which touches no
register). -/
inductive DevAction
  | readStatus
  | readLaserCurrent
  | peltierLoopOn
  | peltierLoopOff
  | heaterLoopOn
  | heaterLoopOff
  | laserOn (current : Nat)
  | laserOff
  | writeOldLaserCurrent (current : Nat)
  | sleepMs (ms : Nat)
  deriving DecidableEq, Repr

/-- Whether an action mutates the device (a register write or loop
command), as opposed to a read or a pure delay. -/
def DevAction.isWrite : DevAction → Bool
  | .peltierLoopOn => true
  | .peltierLoopOff => true
  | .heaterLoopOn => true
  | .heaterLoopOff => true
  | .laserOn _ => true
  | .laserOff => true
  | .writeOldLaserCurrent _ => true
  | .readStatus => false
  | .readLaserCurrent => false
  | .sleepMs _ => false

/-- The values returned by one successful full poll of the seven telemetry
fields (the dict built in `UpdateGUI.get_data`). -/
structure RawData where
  lcurrent : Nat
  ptemp : Nat
  pvolt : Nat
  pconstp : Nat
  pconsti : Nat
  power : Nat
  status : Nat
  deriving DecidableEq, Repr

/-- The `data` dict flowing through `UpdateGUI.run`: either the empty dict
`\x7b\x7d` it is initialised to (`none`) or a full seven-field snapshot. -/
abbrev Snap := Option RawData

/-- The seven telemetry dict keys. -/
inductive Field
  | lcurrent
  | ptemp
  | pvolt
  | pconstp
  | pconsti
  | power
  | status
  deriving DecidableEq, Repr

/-- Projection of a full snapshot at a dict key. -/
def RawData.field (r : RawData) : Field → Nat
  | .lcurrent => r.lcurrent
  | .ptemp => r.ptemp
  | .pvolt => r.pvolt
  | .pconstp => r.pconstp
  | .pconsti => r.pconsti
  | .power => r.power
  | .status => r.status

/-- Python `data[key]`: `none` models the `KeyError` raised when the key is
absent (in this program a dict is either empty or has all seven keys). -/
def Snap.lookup (s : Snap) (f : Field) : Option Nat :=
  s.map (fun r => r.field f)

/-- What the device does during one poll cycle: either all seven reads
succeed and return `r`, or read number `j` raises
`SerialTimeoutException`. -/
inductive CycleOutcome
  | ok (r : RawData)
  | timeout (j : Fin 7)
  deriving DecidableEq, Repr

namespace UpdateGUI

/-- Result of one `get_data` call: its return value (`none` = Python
`None`), the value of `self.unblocked` afterwards, and how many device
register accesses were attempted. -/
structure GDOut where
  result : Option RawData
  unblockedAfter : Bool
  devReads : Nat
  deriving DecidableEq, Repr

/-- `UpdateGUI.get_data`: when `self.unblocked` holds it clears the flag,
reads the seven fields, restores the flag and returns the dict; a timeout
is caught by `except SerialTimeoutException: pass`, which returns `None`
WITHOUT restoring the flag.  When the flag is already cleared the `while`
body is skipped and the method returns `None` with no device access. -/
def get_data : Bool → CycleOutcome → GDOut
  | true, .ok r => { result := some r, unblockedAfter := true, devReads := 7 }
  | true, .timeout j => { result := none, unblockedAfter := false, devReads := j.val + 1 }
  | false, _ => { result := none, unblockedAfter := false, devReads := 0 }

/-- The poll loop body of `UpdateGUI.run`: starting from flag `ub` and
previous dict `data`, process the given cycles, substituting `olddata`
whenever `get_data` returns `None`, and return the list of emitted
snapshots (the `data` argument of each `data_is_logged.emit`). -/
def run : Bool → Snap → List CycleOutcome → List Snap
  | _, _, [] => []
  | ub, data, o :: rest =>
    let g := get_data ub o
    let data' := match g.result with
      | some r => some r
      | none => data
    data' :: run g.unblockedAfter data' rest

end UpdateGUI

namespace MainWindow

/-- `CPPS_List` from `MainWindow.set_devmode`. -/
def CPPS_List : List String :=
  ["SPDC driver, svn-05",
   "S-15 Instruments SPDC source driver, firmware svn-5. Serial: SPDCSDR-10",
   "S-15 Instruments SPDC source driver, firmware svn-7. Serial: SPDCSDR-99"]

/-- `MainWindow.set_devmode`: classify the identity string against
`CPPS_List`. -/
def set_devmode (idn : String) : DevMode :=
  if idn ∈ CPPS_List then DevMode.CPPS else DevMode.EPPS

/-- `MainWindow.toggle_power`.  `fail k` says whether the `k`-th device
call of this invocation raises `SerialTimeoutException`; `unblocked` is
`self.logger.unblocked`.  With the flag cleared the `while not read_out`
loop spins forever (`none`).  An uncaught timeout propagates as
`Except.error` carrying the actions performed before it. -/
def toggle_power (fail : Nat → Bool) :
    Bool → DeviceState → DevMode →
      Option (Except (List DevAction) (DeviceState × List DevAction))
  | false, _, _ => none
  | true, st, mode =>
    some (
      if fail 0 then Except.error []
      else
        if (st.status &&& 256) >>> 8 = 0 then
          if fail 1 then Except.error [DevAction.readStatus]
          else if mode = DevMode.EPPS then
            if fail 2 then Except.error [DevAction.readStatus, DevAction.peltierLoopOn]
            else Except.ok (st,
              [DevAction.readStatus, DevAction.peltierLoopOn, DevAction.heaterLoopOn])
          else Except.ok (st, [DevAction.readStatus, DevAction.peltierLoopOn])
        else
          if fail 1 then Except.error [DevAction.readStatus]
          else if fail 2 then Except.error [DevAction.readStatus, DevAction.peltierLoopOff]
          else Except.ok (st,
            [DevAction.readStatus, DevAction.peltierLoopOff, DevAction.heaterLoopOff]))

/-- `MainWindow.toggle_laser`.  `setpoint` is `self.lcurr.value()` (the GUI
current setpoint, read without a device call).  Same conventions as
`toggle_power`. -/
def toggle_laser (fail : Nat → Bool) :
    Bool → Nat → DeviceState →
      Option (Except (List DevAction) (DeviceState × List DevAction))
  | false, _, _ => none
  | true, setpoint, st =>
    some (
      if fail 0 then Except.error []
      else
        if (st.status &&& 4) >>> 2 = 0 ∧ (st.status &&& 512) >>> 9 = 0 then
          if fail 1 then Except.error [DevAction.readStatus]
          else if fail 2 then Except.error [DevAction.readStatus, DevAction.laserOff]
          else Except.ok (st,
            [DevAction.readStatus, DevAction.laserOff, DevAction.laserOn setpoint,
             DevAction.sleepMs 20])
        else if (st.status &&& 512) >>> 9 = 1 ∧ (st.status &&& 4) >>> 2 = 1 then
          if fail 1 then Except.error [DevAction.readStatus]
          else if fail 2 then
            Except.error [DevAction.readStatus, DevAction.readLaserCurrent]
          else if fail 3 then
            Except.error [DevAction.readStatus, DevAction.readLaserCurrent,
              DevAction.laserOff]
          else Except.ok ({ st with old_laser_current := st.laser_current },
            [DevAction.readStatus, DevAction.readLaserCurrent, DevAction.laserOff,
             DevAction.writeOldLaserCurrent st.laser_current, DevAction.sleepMs 20])
        else Except.ok (st, [DevAction.readStatus]))

/-- Button/field colour states used by the UI updates. -/
inductive Color
  | green
  | red
  deriving DecidableEq, Repr

/-- The UI-visible outputs of `MainWindow.update_from_thread`. -/
structure UIState where
  ltempLabel : Nat
  currentAct : Nat
  pvolt : Nat
  powerColor : Color
  laserColor : Color
  lcurrEnabled : Bool
  deriving DecidableEq, Repr

/-- `MainWindow.update_from_thread` on the emitted dict: field lookups on
the empty dict raise `KeyError` (`none`); on a full snapshot it sets the
labels and derives the power/laser colours and the setpoint-enable state
from the register bits. -/
def update_from_thread (data : Snap) : Option UIState :=
  match data with
  | none => none
  | some r =>
    some { ltempLabel := r.ptemp
           currentAct := r.lcurrent
           pvolt := r.pvolt
           powerColor := if r.power &&& 1 = 1 then Color.green else Color.red
           laserColor := if r.power &&& 2 = 2 ∧ r.status &&& 4 = 4
             then Color.green else Color.red
           lcurrEnabled := decide (r.power &&& 2 = 2 ∧ r.status &&& 4 = 4) }

/-- The laser part of `MainWindow.enableDevOptions`: the laser button
colour and whether the current-setpoint control is enabled, from the
device's power and status registers. -/
def enableDevOptions (st : DeviceState) : Color × Color × Bool :=
  (if st.power &&& 1 = 1 then Color.green else Color.red,
   if st.power &&& 2 = 2 ∧ st.status &&& 4 = 4 then Color.green else Color.red,
   decide (st.power &&& 2 = 2 ∧ st.status &&& 4 = 4))

end MainWindow

/-- The derived laser-ready predicate: the condition
`power&2 == 2 and status&4 == 4` shared by `enableDevOptions` and
`update_from_thread`. -/
def laserReady (power status : Nat) : Bool :=
  decide (power &&& 2 = 2 ∧ status &&& 4 = 4)

/-- The `data` value carried across cycles after processing a successful
prefix: the last snapshot of `sl`, or the incoming `d` when `sl` is
empty. -/
def lastD : List RawData → Snap → Snap
  | [], d => d
  | r :: sl, _ => lastD sl (some r)

/-- A concrete device state used by the witnesses. -/
def sampleState (power status : Nat) : DeviceState :=
  { laser_current := 3
    peltier_temp := 25
    peltier_voltage := 2
    pconstp := 1
    pconsti := 1
    power := power
    status := status
    old_laser_current := 0 }

/-- A concrete raw snapshot used by the witnesses. -/
def sampleRaw : RawData :=
  { lcurrent := 1, ptemp := 2, pvolt := 3, pconstp := 4, pconsti := 5,
    power := 6, status := 7 }

/-! ## Bit-decoding helper lemmas -/

theorem and_pow_shift (s i : Nat) :
    (s &&& 2 ^ i) >>> i = (s.testBit i).toNat := by
  rw [Nat.and_two_pow]
  cases s.testBit i
  · simp
  · simp [Nat.shiftRight_eq_div_pow, Nat.div_self (Nat.two_pow_pos i)]

theorem status_and4 (s : Nat) : (s &&& 4) >>> 2 = (s.testBit 2).toNat := by
  have h : (4 : Nat) = 2 ^ 2 := by norm_num
  rw [h, and_pow_shift]

theorem status_and256 (s : Nat) : (s &&& 256) >>> 8 = (s.testBit 8).toNat := by
  have h : (256 : Nat) = 2 ^ 8 := by norm_num
  rw [h, and_pow_shift]

theorem status_and512 (s : Nat) : (s &&& 512) >>> 9 = (s.testBit 9).toNat := by
  have h : (512 : Nat) = 2 ^ 9 := by norm_num
  rw [h, and_pow_shift]

theorem and_pow_eq_iff (p i : Nat) :
    p &&& 2 ^ i = 2 ^ i ↔ p.testBit i = true := by
  rw [Nat.and_two_pow]
  cases h : p.testBit i
  · simp only [h, Bool.toNat_false, Nat.zero_mul]
    simp [(Nat.two_pow_pos i).ne]
  · simp [h]

theorem mask2_iff (p : Nat) : p &&& 2 = 2 ↔ p.testBit 1 = true := by
  have h : (2 : Nat) = 2 ^ 1 := by norm_num
  rw [h, and_pow_eq_iff]

theorem mask4_iff (s : Nat) : s &&& 4 = 4 ↔ s.testBit 2 = true := by
  have h : (4 : Nat) = 2 ^ 2 := by norm_num
  rw [h, and_pow_eq_iff]

/-! ## Poll-loop helper lemmas -/

theorem run_cons_true_ok (d : Snap) (r : RawData) (rest : List CycleOutcome) :
    UpdateGUI.run true d (CycleOutcome.ok r :: rest) =
      some r :: UpdateGUI.run true (some r) rest := rfl

theorem run_cons_true_timeout (d : Snap) (j : Fin 7) (rest : List CycleOutcome) :
    UpdateGUI.run true d (CycleOutcome.timeout j :: rest) =
      d :: UpdateGUI.run false d rest := rfl

theorem run_cons_false (d : Snap) (o : CycleOutcome) (rest : List CycleOutcome) :
    UpdateGUI.run false d (o :: rest) = d :: UpdateGUI.run false d rest := by
  cases o <;> rfl

theorem run_timeout_head (ub : Bool) (d : Snap) (j : Fin 7)
    (rest : List CycleOutcome) :
    (UpdateGUI.run ub d (CycleOutcome.timeout j :: rest)).get? 0 = some d := by
  cases ub
  · rw [run_cons_false]; rfl
  · rw [run_cons_true_timeout]; rfl

theorem run_false_const (os : List CycleOutcome) (d : Snap) :
    UpdateGUI.run false d os = List.replicate os.length d := by
  induction os with
  | nil => rfl
  | cons o rest ih => rw [run_cons_false, ih, List.length_cons, List.replicate_succ]

theorem run_over_ok_cycles (sl : List RawData) :
    ∀ (d : Snap) (os : List CycleOutcome),
      UpdateGUI.run true d (sl.map CycleOutcome.ok ++ os) =
        sl.map some ++ UpdateGUI.run true (lastD sl d) os := by
  induction sl with
  | nil => intro d os; rfl
  | cons r sl ih =>
    intro d os
    rw [List.map_cons, List.cons_append, run_cons_true_ok, ih (some r) os,
      List.map_cons, List.cons_append]
    rfl

theorem lastD_concat (sl : List RawData) :
    ∀ (d : Snap) (r : RawData), lastD (sl ++ [r]) d = some r := by
  induction sl with
  | nil => intro d r; rfl
  | cons s sl ih => intro d r; exact ih (some s) r

theorem run_get_succ_timeout (os : List CycleOutcome) :
    ∀ (ub : Bool) (d : Snap) (n : Nat) (j : Fin 7),
      os.get? (n + 1) = some (CycleOutcome.timeout j) →
      (UpdateGUI.run ub d os).get? (n + 1) = (UpdateGUI.run ub d os).get? n := by
  induction os with
  | nil => intro ub d n j h; simp at h
  | cons o rest ih =>
    intro ub d n j h
    cases n with
    | zero =>
      cases rest with
      | nil => simp at h
      | cons r rest' =>
        have hr : r = CycleOutcome.timeout j := by simpa using h
        subst hr
        cases ub
        · exact run_timeout_head false d j rest'
        · cases o with
          | ok r => exact run_timeout_head true (some r) j rest'
          | timeout j' => exact run_timeout_head false d j rest'
    | succ m =>
      have h' : rest.get? (m + 1) = some (CycleOutcome.timeout j) := by
        simpa using h
      cases ub
      · rw [run_cons_false]
        simpa using ih false d m j h'
      · cases o
        · rw [run_cons_true_ok]
          simpa using ih true _ m j h'
        · rw [run_cons_true_timeout]
          simpa using ih false d m j h'

/-! ## Claim theorems -/

/-- Claim C1 (code bug): the spec requires every operation touching the
device handle to set the serializer's busy flag before its first register
access and clear it after its last on every exit path, but `get_data`'s
timeout path (`except SerialTimeoutException: pass`) returns after a
register access was attempted with `unblocked` left `False`, never
cleared. -/
theorem c1_busy_flag_left_set_on_timeout :
    UpdateGUI.get_data true (CycleOutcome.timeout (0 : Fin 7)) =
      { result := none, unblockedAfter := false, devReads := 1 } := rfl

/-- Claim C2: with the serializer free, one `toggle_power` invocation reads
the status register and then: bit 8 clear issues peltier-loop-on followed
by heater-loop-on exactly when the mode is EPPS; bit 8 set issues
peltier-loop-off then heater-loop-off; nothing else is issued and the
tracked device state is unchanged. -/
theorem c2_power_toggle_sequence (st : DeviceState) (mode : DevMode) :
    MainWindow.toggle_power (fun _ => false) true st mode =
      some (Except.ok (st,
        DevAction.readStatus ::
          (if st.status.testBit 8 = false then
            DevAction.peltierLoopOn ::
              (if mode = DevMode.EPPS then [DevAction.heaterLoopOn] else [])
          else [DevAction.peltierLoopOff, DevAction.heaterLoopOff]))) := by
  cases h8 : st.status.testBit 8 <;> cases mode <;>
    simp [MainWindow.toggle_power, status_and256, h8]

/-- Claim C3: from the steady laser-off state (bits 2 and 9 both clear),
`toggle_laser` issues laser-off then laser-on at the GUI setpoint, then the
20 ms settle delay; from the steady laser-on state (both set) it reads the
laser current, issues laser-off, caches the pre-toggle current in
`old_laser_current`, then the same settle delay. -/
theorem c3_laser_toggle_steady_states (st : DeviceState) (setpoint : Nat) :
    (st.status.testBit 2 = false → st.status.testBit 9 = false →
      MainWindow.toggle_laser (fun _ => false) true setpoint st =
        some (Except.ok (st,
          [DevAction.readStatus, DevAction.laserOff, DevAction.laserOn setpoint,
           DevAction.sleepMs 20]))) ∧
    (st.status.testBit 2 = true → st.status.testBit 9 = true →
      MainWindow.toggle_laser (fun _ => false) true setpoint st =
        some (Except.ok ({ st with old_laser_current := st.laser_current },
          [DevAction.readStatus, DevAction.readLaserCurrent, DevAction.laserOff,
           DevAction.writeOldLaserCurrent st.laser_current,
           DevAction.sleepMs 20]))) := by
  constructor
  · intro h2 h9
    simp [MainWindow.toggle_laser, status_and4, status_and512, h2, h9]
  · intro h2 h9
    simp [MainWindow.toggle_laser, status_and4, status_and512, h2, h9]

/-- Witness for C3 at a concrete laser-off state (status 0) and a concrete
laser-on state (status 516 = bits 2 and 9). -/
theorem c3_laser_toggle_steady_states_witness :
    MainWindow.toggle_laser (fun _ => false) true 7 (sampleState 3 0) =
      some (Except.ok (sampleState 3 0,
        [DevAction.readStatus, DevAction.laserOff, DevAction.laserOn 7,
         DevAction.sleepMs 20])) ∧
    MainWindow.toggle_laser (fun _ => false) true 7 (sampleState 3 516) =
      some (Except.ok
        ({ sampleState 3 516 with
            old_laser_current := (sampleState 3 516).laser_current },
         [DevAction.readStatus, DevAction.readLaserCurrent, DevAction.laserOff,
          DevAction.writeOldLaserCurrent (sampleState 3 516).laser_current,
          DevAction.sleepMs 20])) :=
  ⟨(c3_laser_toggle_steady_states (sampleState 3 0) 7).1 (by decide) (by decide),
   (c3_laser_toggle_steady_states (sampleState 3 516) 7).2 (by decide) (by decide)⟩

/-- Claim C4: if cycle `n` of the poll loop times out, the snapshot emitted
for cycle `n` equals the one emitted for cycle `n - 1`, and a first-cycle
timeout emits the empty dict. -/
theorem c4_timeout_substitution (os : List CycleOutcome) (n : Nat) (j : Fin 7)
    (h : os.get? n = some (CycleOutcome.timeout j)) :
    (UpdateGUI.run true none os).get? n =
      if n = 0 then some (none : Snap)
      else (UpdateGUI.run true none os).get? (n - 1) := by
  cases n with
  | zero =>
    rw [if_pos rfl]
    cases os with
    | nil => simp at h
    | cons o rest =>
      have ho : o = CycleOutcome.timeout j := by simpa using h
      subst ho
      exact run_timeout_head true none j rest
  | succ m =>
    rw [if_neg (Nat.succ_ne_zero m), Nat.succ_sub_one]
    exact run_get_succ_timeout os true none m j h

/-- Witness for C4: a two-cycle schedule whose second cycle times out;
the second emitted snapshot equals the first. -/
theorem c4_timeout_substitution_witness :
    (UpdateGUI.run true none
      [CycleOutcome.ok sampleRaw, CycleOutcome.timeout (0 : Fin 7)]).get? 1 =
    (UpdateGUI.run true none
      [CycleOutcome.ok sampleRaw, CycleOutcome.timeout (0 : Fin 7)]).get? 0 := by
  have h := c4_timeout_substitution
    [CycleOutcome.ok sampleRaw, CycleOutcome.timeout (0 : Fin 7)] 1 (0 : Fin 7) rfl
  simpa using h

/-- Claim C5: the laser-ready predicate shared by `enableDevOptions` and
`update_from_thread` holds exactly when bit 1 of the power register and
bit 2 of the status register are both set, and it is what enables the
current-setpoint control and colours the laser indicator. -/
theorem c5_laser_ready_bits (power status : Nat) (r : RawData) :
    (laserReady power status = true ↔
      (power.testBit 1 = true ∧ status.testBit 2 = true)) ∧
    (MainWindow.update_from_thread (some r)).map MainWindow.UIState.lcurrEnabled =
      some (laserReady r.power r.status) ∧
    (MainWindow.update_from_thread (some r)).map MainWindow.UIState.laserColor =
      some (if laserReady r.power r.status then MainWindow.Color.green
        else MainWindow.Color.red) ∧
    ((MainWindow.enableDevOptions (sampleState power status)).2.2 =
      laserReady power status) := by
  refine ⟨?_, rfl, ?_, rfl⟩
  · rw [laserReady, decide_eq_true_iff, mask2_iff, mask4_iff]
  · by_cases h : r.power &&& 2 = 2 ∧ r.status &&& 4 = 4 <;>
      simp [MainWindow.update_from_thread, laserReady, h]

/-- Claim C6: from a transitional state (exactly one of status bits 2 and 9
set), `toggle_laser` performs only the status read: zero writes, device
state unchanged. -/
theorem c6_laser_toggle_transitional_no_writes (st : DeviceState)
    (setpoint : Nat) (h : st.status.testBit 2 ≠ st.status.testBit 9) :
    MainWindow.toggle_laser (fun _ => false) true setpoint st =
      some (Except.ok (st, [DevAction.readStatus])) ∧
    List.filter DevAction.isWrite [DevAction.readStatus] = [] := by
  refine ⟨?_, rfl⟩
  cases h2 : st.status.testBit 2 <;> cases h9 : st.status.testBit 9
  · exact absurd (h2.trans h9.symm) h
  · simp [MainWindow.toggle_laser, status_and4, status_and512, h2, h9]
  · simp [MainWindow.toggle_laser, status_and4, status_and512, h2, h9]
  · exact absurd (h2.trans h9.symm) h

/-- Witness for C6 at status 4 (bit 2 set, bit 9 clear). -/
theorem c6_laser_toggle_transitional_no_writes_witness :
    MainWindow.toggle_laser (fun _ => false) true 5 (sampleState 3 4) =
      some (Except.ok (sampleState 3 4, [DevAction.readStatus])) ∧
    List.filter DevAction.isWrite [DevAction.readStatus] = [] :=
  c6_laser_toggle_transitional_no_writes (sampleState 3 4) 5 (by decide)

/-- Counterexample to claim C7 as stated: in EPPS mode with the peltier
loop inactive, a timeout on the third device call (`heater_loop_on`)
surfaces after `peltier_loop_on` was already issued, so a device mutation
HAS been performed by the failed command. -/
theorem c7_mutation_before_failure_cex :
    MainWindow.toggle_power (fun n => n == 2) true (sampleState 0 0) DevMode.EPPS =
      some (Except.error [DevAction.readStatus, DevAction.peltierLoopOn]) ∧
    DevAction.isWrite DevAction.peltierLoopOn = true := ⟨rfl, rfl⟩

/-- Claim C7 (amended): a transient timeout inside a command surfaces to
the caller uncaught; no device mutation has been performed when the failing
call is the first device access (the initial status read). -/
theorem c7_failure_surfaces_no_mutation_on_first_access (fail : Nat → Bool)
    (st : DeviceState) (mode : DevMode) (setpoint : Nat) (h : fail 0 = true) :
    MainWindow.toggle_power fail true st mode = some (Except.error []) ∧
    MainWindow.toggle_laser fail true setpoint st = some (Except.error []) := by
  constructor
  · simp [MainWindow.toggle_power, h]
  · simp [MainWindow.toggle_laser, h]

/-- Witness for the amended C7: every call timing out makes both commands
fail before any action. -/
theorem c7_failure_surfaces_no_mutation_on_first_access_witness :
    MainWindow.toggle_power (fun _ => true) true (sampleState 0 0) DevMode.CPPS =
      some (Except.error []) ∧
    MainWindow.toggle_laser (fun _ => true) true 5 (sampleState 0 0) =
      some (Except.error []) :=
  c7_failure_surfaces_no_mutation_on_first_access
    (fun _ => true) (sampleState 0 0) DevMode.CPPS 5 rfl

/-- Claim C8: `set_devmode` classifies an identity string as CPPS exactly
when it is in the fixed allow-list `CPPS_List` (whose head is
"SPDC driver, svn-05"), and as EPPS otherwise. -/
theorem c8_devmode_classification (idn : String) :
    (MainWindow.set_devmode idn = DevMode.CPPS ↔ idn ∈ MainWindow.CPPS_List) ∧
    (MainWindow.set_devmode idn = DevMode.EPPS ↔ idn ∉ MainWindow.CPPS_List) ∧
    "SPDC driver, svn-05" ∈ MainWindow.CPPS_List := by
  refine ⟨?_, ?_, List.mem_cons_self _ _⟩ <;>
    by_cases h : idn ∈ MainWindow.CPPS_List <;>
      simp [MainWindow.set_devmode, h]

/-- Claim C9: once a poll-cycle read times out with the flag held, the flag
is never restored; with the flag cleared, `get_data` returns `None` with
zero device accesses; the poll loop over an all-ok prefix followed by a
timeout emits the prefix and then repeats the last pre-timeout snapshot on
every later cycle; and with the flag cleared both toggle commands spin
forever (`none`, never touching the device). -/
theorem c9_stuck_flag_behavior (o : CycleOutcome) (j : Fin 7)
    (fail : Nat → Bool) (st : DeviceState) (mode : DevMode) (setpoint : Nat)
    (sl : List RawData) (rest : List CycleOutcome) (r0 : RawData) :
    (UpdateGUI.get_data true (CycleOutcome.timeout j)).unblockedAfter = false ∧
    UpdateGUI.get_data false o =
      { result := none, unblockedAfter := false, devReads := 0 } ∧
    UpdateGUI.run true none
        (sl.map CycleOutcome.ok ++ CycleOutcome.timeout j :: rest) =
      sl.map some ++ List.replicate (rest.length + 1) (lastD sl none) ∧
    lastD (sl ++ [r0]) none = some r0 ∧
    MainWindow.toggle_power fail false st mode = none ∧
    MainWindow.toggle_laser fail false setpoint st = none := by
  refine ⟨rfl, ?_, ?_, lastD_concat sl none r0, rfl, rfl⟩
  · cases o <;> rfl
  · rw [run_over_ok_cycles, run_cons_true_timeout, run_false_const,
      List.replicate_succ]

/-- Claim C10: a first-cycle timeout emits the empty dict, on which every
telemetry-field lookup has no value and the consumer callback's field
accesses fail. -/
theorem c10_first_cycle_empty_snapshot (j : Fin 7) (rest : List CycleOutcome)
    (f : Field) :
    (UpdateGUI.run true none (CycleOutcome.timeout j :: rest)).get? 0 =
      some (none : Snap) ∧
    Snap.lookup (none : Snap) f = none ∧
    MainWindow.update_from_thread (none : Snap) = none :=
  ⟨run_timeout_head true none j rest, rfl, rfl⟩

end SpdcGUI
